import Mathlib

/-!
Verification of the evaluation-orchestration and sandboxed-execution engine.

Shallow embedding of the Python sources:
  scripts/evals/comprehensive_eval_suite.py  (ComprehensiveEvalSuite)
  scripts/evals/run_humaneval.py             (execute_code, run_evaluation)

Modelling conventions:
  * Python dicts with string keys are association lists `List (String × PyVal)`
    preserving insertion order, exactly as CPython dicts do; nested values use
    the `PyVal` inductive.  Key membership (`"k" in d`) is `dget d k ≠ none`.
  * Python floats that hold exact decimal fractions in this program (pass
    rates, thresholds) are modelled as rationals `ℚ`.
  * Effectful boundaries (the subprocess run inside `execute_code`, the HTTP
    call inside `test_security_vulnerability`) are parameters: an
    `ExecBehavior` describes how running a candidate program turns out, and a
    `ServiceResponse` describes how one HTTP request to the remote service
    turns out.  The filesystem of temporary files is threaded explicitly as a
    list of allocated names.
  * Wall-clock fields (`timestamp`, `total_time`, `avg_time_per_problem`) and
    the file writes of `save_results`/`publish_results` are outside the
    embedding; everything else follows the source line by line.
-/

set_option maxHeartbeats 1000000

namespace UAIDA

/-- A Python value as it occurs in the dictionaries of the two scripts. -/
inductive PyVal where
  | bool (b : Bool)
  | int (n : Int)
  | rat (q : ℚ)
  | str (s : String)
  | list (xs : List PyVal)
  | dict (xs : List (String × PyVal))

/-- A Python dict with string keys, as an insertion-ordered association list. -/
abbrev PyDict := List (String × PyVal)

/-- `d[k]` / `d.get(k)`: the value of the first (and in this program only)
binding of `k`. -/
def dget (d : PyDict) (k : String) : Option PyVal :=
  (d.find? (fun p => p.1 == k)).map Prod.snd

/-- `ComprehensiveEvalSuite.calculate_grade`: the stepped letter grade. -/
def calculate_grade (pass_rate : ℚ) : String :=
  if pass_rate ≥ 0.9 then "A"
  else if pass_rate ≥ 0.8 then "B"
  else if pass_rate ≥ 0.7 then "C"
  else if pass_rate ≥ 0.6 then "D"
  else "F"

/-- Numeric quality of a letter grade (A best), used to state monotonicity. -/
def gradeScore : String → ℕ
  | "A" => 4
  | "B" => 3
  | "C" => 2
  | "D" => 1
  | _ => 0

/-- `"pass_rate" in result` followed by the numeric read `result["pass_rate"]`:
the rational value of the `pass_rate` key when present (in the program every
`pass_rate` value is a float). -/
def getRate (d : PyDict) : Option ℚ :=
  match dget d "pass_rate" with
  | some (.rat q) => some q
  | _ => none

/-- `result.get("pass_rate", default)` as used by the recommendation loop. -/
def rateOrDefault (d : PyDict) (default : ℚ) : ℚ :=
  match dget d "pass_rate" with
  | some (.rat q) => q
  | _ => default

/-- `result.get("status") == "success"`. -/
def isSuccess (d : PyDict) : Bool :=
  match dget d "status" with
  | some (.str s) => s == "success"
  | _ => false

/-- The accumulation loop of `calculate_summary`:
`total_pass_rate`/`valid_evals` summed over the evaluations dict. -/
def pass_rate_acc (evaluations : List (String × PyDict)) : ℚ × ℕ :=
  evaluations.foldl
    (fun acc p =>
      match getRate p.2 with
      | some q => (acc.1 + q, acc.2 + 1)
      | none => acc)
    (0, 0)

/-- The `overall_pass_rate` value computed inside `calculate_summary`:
`total_pass_rate / valid_evals if valid_evals > 0 else 0`. -/
def overall_pass_rate (evaluations : List (String × PyDict)) : ℚ :=
  let acc := pass_rate_acc evaluations
  if acc.2 > 0 then acc.1 / acc.2 else 0

/-- CPython `format(x, ".1%")` on the exact rationals of this program: the
rate as a percentage with one decimal digit (ties rounded here by `round`;
the program never evaluates it at a tie). -/
def fmtPct (q : ℚ) : String :=
  let m : ℤ := round (q * 1000)
  let sign := if m < 0 then "-" else ""
  let n := m.natAbs
  sign ++ toString (n / 10) ++ "." ++ toString (n % 10) ++ "%"

/-- The f-string
`f"Improve {eval_name} performance (current: {result.get('pass_rate', 0):.1%})"`. -/
def recommendation_for (eval_name : String) (rate : ℚ) : String :=
  "Improve " ++ eval_name ++ " performance (current: " ++ fmtPct rate ++ ")"

/-- `ComprehensiveEvalSuite.generate_recommendations`: one entry per category
with `get("pass_rate", 1.0) < 0.8`, else a single affirmative line. -/
def generate_recommendations (evaluations : List (String × PyDict)) : List String :=
  let recommendations := evaluations.foldl
    (fun acc p =>
      if rateOrDefault p.2 1.0 < 0.8 then
        acc ++ [recommendation_for p.1 (rateOrDefault p.2 0)]
      else acc)
    []
  if recommendations.isEmpty then
    ["Excellent performance across all evaluations!"]
  else recommendations

/-- `ComprehensiveEvalSuite.calculate_summary`. -/
def calculate_summary (evaluations : List (String × PyDict)) : PyDict :=
  [("overall_pass_rate", .rat (overall_pass_rate evaluations)),
   ("total_evaluations", .int evaluations.length),
   ("successful_evaluations", .int (evaluations.countP (fun p => isSuccess p.2))),
   ("grade", .str (calculate_grade (overall_pass_rate evaluations))),
   ("recommendations", .list ((generate_recommendations evaluations).map PyVal.str))]

/-! ## Task scheduler (`run_all_evaluations`) -/

/-- How `await task` for one category settles: either the produced result
dict, or an exception with message `str(e)`. -/
abbrev TaskOutcome := Except String PyDict

/-- `results["evaluations"][eval_name] = ...`: dict assignment — update the
existing binding in place, else append a new one. -/
def dictSet (d : List (String × PyDict)) (k : String) (v : PyDict) :
    List (String × PyDict) :=
  if d.any (fun p => p.1 == k) then
    d.map (fun p => if p.1 == k then (k, v) else p)
  else d ++ [(k, v)]

/-- The body of the scheduler loop: the recorded payload for one category —
its result on success, `{"error": str(e)}` on an exception. -/
def settle : TaskOutcome → PyDict
  | .ok r => r
  | .error e => [("error", .str e)]

/-- The report built by `run_all_evaluations`: its `"evaluations"` dict and
the `"summary"` computed from it afterwards (`suite`, `timestamp` and
`total_time` are wall-clock metadata outside the embedding). -/
structure SuiteReport where
  evaluations : List (String × PyDict)
  summary : PyDict

/-- `ComprehensiveEvalSuite.run_all_evaluations` over a list of
(category name, settled task) pairs. -/
def run_all_evaluations (tasks : List (String × TaskOutcome)) : SuiteReport :=
  let evaluations := tasks.foldl (fun acc p => dictSet acc p.1 (settle p.2)) []
  { evaluations := evaluations, summary := calculate_summary evaluations }

/-! ## Sandbox executor (`execute_code` in run_humaneval.py) -/

/-- How the sandboxed run of one candidate program turns out: the child
process completes with an exit status and captured streams, exceeds the
10-second bound (`subprocess.TimeoutExpired`), or some other exception is
raised during execution. -/
inductive ExecBehavior where
  | completes (returncode : Int) (stdout stderr : String)
  | timesOut
  | raises (msg : String)
  deriving DecidableEq

/-- The try/except body of `execute_code`: the outcome dict returned for each
way the run can turn out. -/
def run_python : ExecBehavior → PyDict
  | .completes rc out err =>
      [("success", .bool (rc == 0)), ("stdout", .str out),
       ("stderr", .str err), ("returncode", .int rc)]
  | .timesOut =>
      [("success", .bool false), ("stdout", .str ""),
       ("stderr", .str "Execution timeout"), ("returncode", .int (-1))]
  | .raises msg =>
      [("success", .bool false), ("stdout", .str ""),
       ("stderr", .str msg), ("returncode", .int (-1))]

/-- `tempfile.NamedTemporaryFile`: a name distinct from every live temporary
file (proved below), modelling the library's unique-name guarantee. -/
def freshName (fs : List ℕ) : ℕ :=
  fs.foldr max 0 + 1

/-- `execute_code` with the set of live temporary files threaded explicitly:
allocate a fresh file, run the program (`b` says how that turns out), and in
`finally:` unlink the file.  Returns the files left afterwards and the
outcome dict. -/
def execute_code (fs : List ℕ) (b : ExecBehavior) : List ℕ × PyDict :=
  let temp_file := freshName fs
  let live := temp_file :: fs
  let result := run_python b
  (live.erase temp_file, result)

/-! ## HumanEval+ benchmark loop (`run_evaluation` in run_humaneval.py) -/

/-- One dataset problem together with how its run turns out: the completion
the remote service returned for its prompt (`""` when the API yielded none)
and the behavior of executing prompt + completion + appended tests. -/
structure Problem where
  task_id : String
  completion : String
  behavior : ExecBehavior
  deriving DecidableEq

/-- One entry of the per-problem `results` list. -/
structure ProblemRecord where
  task_id : String
  completion : String
  passed : Bool
  result : PyDict

/-- `evaluate_solution`: execute the combined code once and read
`result["success"]` as `passed`. -/
def evaluate_solution (p : Problem) : ProblemRecord :=
  let r := run_python p.behavior
  { task_id := p.task_id, completion := p.completion,
    passed := match dget r "success" with | some (.bool b) => b | _ => false,
    result := r }

/-- One iteration of the `run_evaluation` loop, paired with the number of
sandbox invocations it performs: with no completion, record the fixed
failure dict and `continue` (zero executions); otherwise evaluate once. -/
def eval_step (p : Problem) : ProblemRecord × ℕ :=
  if p.completion = "" then
    ({ task_id := p.task_id, completion := "", passed := false,
       result := [("success", .bool false), ("stderr", .str "No completion")] }, 0)
  else (evaluate_solution p, 1)

/-- The aggregate metrics of `run_evaluation` (timing fields omitted). -/
structure RunSummary where
  total_problems : ℕ
  passed : ℕ
  pass_rate : ℚ
  results : List ProblemRecord

/-- `run_evaluation` over the (already truncated) problem list. -/
def run_evaluation (problems : List Problem) : RunSummary :=
  let results := problems.map (fun p => (eval_step p).1)
  let passed := results.countP (fun r => r.passed)
  let total := problems.length
  { total_problems := total, passed := passed,
    pass_rate := if total > 0 then ((passed : ℚ) / total) * 100 else 0,
    results := results }

/-! ## Security evaluation -/

/-- How one HTTP request to the remote service turns out: a response with a
status code, or an exception (service unreachable, timeout, ...). -/
inductive ServiceResponse where
  | status (code : ℕ)
  | exn
  deriving DecidableEq

/-- `ComprehensiveEvalSuite.test_security_vulnerability`: blocked iff the
response status is ≥ 400, and assumed blocked when the request fails. -/
def test_security_vulnerability : ServiceResponse → Bool
  | .status code => code ≥ 400
  | .exn => true

/-- The fixed payload battery of `run_security_eval`. -/
def security_tests : List (String × String) :=
  [("SQL Injection", "\x27; DROP TABLE users; --"),
   ("XSS", "<script>alert(\x27xss\x27)</script>"),
   ("Path Traversal", "../../../etc/passwd"),
   ("Command Injection", "; rm -rf /")]

/-- `ComprehensiveEvalSuite.run_security_eval`, parameterised by how the
service responds to each payload. -/
def run_security_eval (respond : String → ServiceResponse) : PyDict :=
  let results := security_tests.map (fun t =>
    let blocked := test_security_vulnerability (respond t.2)
    [("name", PyVal.str t.1), ("blocked", PyVal.bool blocked),
     ("passed", PyVal.bool blocked)])
  let passed := results.countP (fun r =>
    match dget r "passed" with | some (.bool b) => b | _ => false)
  [("status", .str "success"), ("passed", .int passed),
   ("total", .int results.length),
   ("pass_rate", .rat ((passed : ℚ) / results.length)),
   ("results", .list (results.map PyVal.dict))]

/-! ## Helper notions and lemmas -/

/-- The pass rates exposed by an evaluations dict, in order. -/
def rates (evaluations : List (String × PyDict)) : List ℚ :=
  evaluations.filterMap (fun p => getRate p.2)

lemma pass_rate_acc_aux (l : List (String × PyDict)) (a : ℚ × ℕ) :
    l.foldl
      (fun acc p =>
        match getRate p.2 with
        | some q => (acc.1 + q, acc.2 + 1)
        | none => acc) a
    = (a.1 + (rates l).sum, a.2 + (rates l).length) := by
  induction l generalizing a with
  | nil => simp [rates]
  | cons p l ih =>
    cases h : getRate p.2 with
    | none =>
      simp only [List.foldl_cons, h, ih]
      simp [rates, List.filterMap_cons, h]
    | some q =>
      simp only [List.foldl_cons, h, ih]
      simp [rates, List.filterMap_cons, h]
      constructor
      · ring
      · omega

lemma pass_rate_acc_eq (evaluations : List (String × PyDict)) :
    pass_rate_acc evaluations = ((rates evaluations).sum, (rates evaluations).length) := by
  simpa using pass_rate_acc_aux evaluations (0, 0)

lemma overall_pass_rate_eq (evaluations : List (String × PyDict)) :
    overall_pass_rate evaluations
      = if (rates evaluations).length > 0 then
          (rates evaluations).sum / (rates evaluations).length
        else 0 := by
  simp [overall_pass_rate, pass_rate_acc_eq]

lemma dget_summary_overall (evaluations : List (String × PyDict)) :
    dget (calculate_summary evaluations) "overall_pass_rate"
      = some (.rat (overall_pass_rate evaluations)) := rfl

/-! ## C1: overall_pass_rate is the mean of the available pass rates -/

/-- C1: `calculate_summary`'s `overall_pass_rate` is the arithmetic mean of
the `pass_rate` values of exactly those results that carry one (when any
does), and appending a result without a `pass_rate` leaves it unchanged. -/
theorem C1_overall_pass_rate_mean (evaluations : List (String × PyDict)) :
    (rates evaluations ≠ [] →
      dget (calculate_summary evaluations) "overall_pass_rate"
        = some (.rat ((rates evaluations).sum / (rates evaluations).length)))
    ∧ ∀ (name : String) (r : PyDict), getRate r = none →
        dget (calculate_summary (evaluations ++ [(name, r)])) "overall_pass_rate"
          = dget (calculate_summary evaluations) "overall_pass_rate" := by
  constructor
  · intro h
    rw [dget_summary_overall, overall_pass_rate_eq,
      if_pos (by simpa [List.length_pos] using h)]
  · intro name r hr
    rw [dget_summary_overall, dget_summary_overall, overall_pass_rate_eq,
      overall_pass_rate_eq]
    have : rates (evaluations ++ [(name, r)]) = rates evaluations := by
      simp [rates, List.filterMap_append, hr]
    rw [this]

/-- C1 witness: a mixed suite with one category exposing `pass_rate` 1/2 and
one without any. -/
theorem C1_witness :
    (dget (calculate_summary
        [("humaneval", [("status", PyVal.str "success"), ("pass_rate", PyVal.rat (1/2))]),
         ("swebench", [("error", PyVal.str "boom")])]) "overall_pass_rate"
      = some (.rat ((rates
          [("humaneval", [("status", PyVal.str "success"), ("pass_rate", PyVal.rat (1/2))]),
           ("swebench", [("error", PyVal.str "boom")])]).sum /
        (rates
          [("humaneval", [("status", PyVal.str "success"), ("pass_rate", PyVal.rat (1/2))]),
           ("swebench", [("error", PyVal.str "boom")])]).length)))
    ∧ dget (calculate_summary
        ([("humaneval", [("status", PyVal.str "success"), ("pass_rate", PyVal.rat (1/2))])]
          ++ [("perf", [("status", PyVal.str "failed")])])) "overall_pass_rate"
      = dget (calculate_summary
          [("humaneval", [("status", PyVal.str "success"), ("pass_rate", PyVal.rat (1/2))])])
          "overall_pass_rate" :=
  ⟨(C1_overall_pass_rate_mean _).1 (by decide),
   (C1_overall_pass_rate_mean _).2 "perf" [("status", PyVal.str "failed")] rfl⟩

/-! ## C2: the letter grade is stepped with inclusive lower bounds and monotone -/

/-- C2: `calculate_grade` matches the threshold table at the boundaries and is
monotone non-decreasing in the pass rate. -/
theorem C2_calculate_grade_boundaries_monotone :
    calculate_grade 0.90 = "A" ∧ calculate_grade 0.8999 = "B" ∧
    calculate_grade 0.80 = "B" ∧ calculate_grade 0.5999 = "F" ∧
    ∀ x y : ℚ, x ≤ y →
      gradeScore (calculate_grade x) ≤ gradeScore (calculate_grade y) := by
  refine ⟨?_, ?_, ?_, ?_, ?_⟩
  · unfold calculate_grade; norm_num
  · unfold calculate_grade; norm_num
  · unfold calculate_grade; norm_num
  · unfold calculate_grade; norm_num
  · intro x y hxy
    unfold calculate_grade
    split_ifs <;> first | decide | linarith

/-- C2 witness: a rate in the D band against one in the A band. -/
theorem C2_witness :
    gradeScore (calculate_grade 0.65) ≤ gradeScore (calculate_grade 0.95) :=
  C2_calculate_grade_boundaries_monotone.2.2.2.2 0.65 0.95 (by norm_num)

/-! ## Scheduler lemmas -/

lemma dictSet_of_not_mem (d : List (String × PyDict)) (k : String) (v : PyDict)
    (h : k ∉ d.map Prod.fst) : dictSet d k v = d ++ [(k, v)] := by
  unfold dictSet
  rw [if_neg]
  simp only [List.any_eq_true, beq_iff_eq, not_exists, not_and]
  intro p hp
  exact fun hk => h (hk ▸ List.mem_map_of_mem Prod.fst hp)

lemma run_all_loop_eq (tasks : List (String × TaskOutcome))
    (acc : List (String × PyDict))
    (hnd : (tasks.map Prod.fst).Nodup)
    (hdisj : ∀ k ∈ tasks.map Prod.fst, k ∉ acc.map Prod.fst) :
    tasks.foldl (fun a p => dictSet a p.1 (settle p.2)) acc
      = acc ++ tasks.map (fun p => (p.1, settle p.2)) := by
  induction tasks generalizing acc with
  | nil => simp
  | cons t ts ih =>
    simp only [List.map_cons, List.nodup_cons, List.mem_cons] at hnd hdisj
    rw [List.foldl_cons, dictSet_of_not_mem _ _ _ (hdisj t.1 (Or.inl rfl)),
      ih (acc ++ [(t.1, settle t.2)]) hnd.2]
    · simp
    · intro k hk
      simp only [List.map_append, List.mem_append, List.map_cons, List.map_nil,
        List.mem_singleton, not_or]
      exact ⟨fun hmem => hdisj k (Or.inr hk) hmem,
        fun he => hnd.1 (he ▸ hk)⟩

lemma run_all_evaluations_eq (tasks : List (String × TaskOutcome))
    (hnd : (tasks.map Prod.fst).Nodup) :
    (run_all_evaluations tasks).evaluations
      = tasks.map (fun p => (p.1, settle p.2)) := by
  unfold run_all_evaluations
  simpa using run_all_loop_eq tasks [] hnd (by simp)

/-! ## C3: the report has exactly the requested categories, failures isolated -/

/-- C3: for distinct requested category names, `run_all_evaluations` records
exactly those categories, one result each, each category's entry depending
only on its own task (so one failure never drops a sibling), and the report
always carries the summary computed from the evaluations — also when every
category fails. -/
theorem C3_report_complete_isolated (tasks : List (String × TaskOutcome))
    (hnd : (tasks.map Prod.fst).Nodup) :
    (run_all_evaluations tasks).evaluations
      = tasks.map (fun p => (p.1, settle p.2))
    ∧ (run_all_evaluations tasks).evaluations.map Prod.fst = tasks.map Prod.fst
    ∧ (run_all_evaluations tasks).summary
      = calculate_summary ((run_all_evaluations tasks).evaluations) := by
  refine ⟨run_all_evaluations_eq tasks hnd, ?_, rfl⟩
  rw [run_all_evaluations_eq tasks hnd, List.map_map]
  rfl

/-- A two-category run in which every category raises. -/
def allFail : List (String × TaskOutcome) :=
  [("humaneval", Except.error "x"), ("swebench", Except.error "y")]

/-- C3 witness: a run in which every category fails still yields a report
with both categories and a computed summary. -/
theorem C3_witness :
    (run_all_evaluations allFail).evaluations = allFail.map (fun p => (p.1, settle p.2))
    ∧ (run_all_evaluations allFail).evaluations.map Prod.fst = allFail.map Prod.fst
    ∧ (run_all_evaluations allFail).summary
      = calculate_summary ((run_all_evaluations allFail).evaluations) :=
  C3_report_complete_isolated allFail (by decide)

/-! ## C4: what the scheduler records when a category's operation raises -/

/-- C4 counterexample: when the `humaneval` task raises `"boom"`, the
recorded payload is `{"error": "boom"}` — it has no `status` key at all, in
particular not `status="failed"` as the claim states. -/
theorem C4_counterexample :
    (run_all_evaluations [("humaneval", Except.error "boom")]).evaluations
      = [("humaneval", [("error", PyVal.str "boom")])]
    ∧ dget [("error", PyVal.str "boom")] "status" ≠ some (PyVal.str "failed") := by
  constructor
  · rfl
  · intro h
    simp [dget] at h

/-- C4 amended: for a category whose operation raises, the scheduler records,
under that category's name, the payload `{"error": <message>}` carrying the
exception's message; the payload itself has no `status` field. -/
theorem C4_failure_payload (tasks : List (String × TaskOutcome))
    (hnd : (tasks.map Prod.fst).Nodup) (name msg : String)
    (hmem : (name, Except.error msg) ∈ tasks) :
    (name, [("error", PyVal.str msg)]) ∈ (run_all_evaluations tasks).evaluations
    ∧ dget [("error", PyVal.str msg)] "error" = some (.str msg)
    ∧ dget [("error", PyVal.str msg)] "status" = none := by
  refine ⟨?_, rfl, rfl⟩
  rw [run_all_evaluations_eq tasks hnd]
  exact List.mem_map_of_mem (fun p => (p.1, settle p.2)) hmem

/-- C4 witness: a single raising category. -/
theorem C4_witness :
    ("humaneval", [("error", PyVal.str "boom")])
      ∈ (run_all_evaluations [("humaneval", Except.error "boom")]).evaluations
    ∧ dget [("error", PyVal.str "boom")] "error" = some (.str "boom")
    ∧ dget [("error", PyVal.str "boom")] "status" = none :=
  C4_failure_payload [("humaneval", Except.error "boom")] (by decide)
    "humaneval" "boom" (List.mem_singleton.mpr rfl)

/-! ## C5: the timeout outcome -/

/-- C5 counterexample: the outcome of a timed-out run has no `timeout` key at
all (so not `timeout=true`), and its diagnostic is `"Execution timeout"`, not
the claimed exact string `"execution timeout"`. -/
theorem C5_counterexample :
    dget (execute_code [] .timesOut).2 "timeout" = none
    ∧ dget (execute_code [] .timesOut).2 "stderr"
        ≠ some (PyVal.str "execution timeout") := by
  refine ⟨rfl, fun h => ?_⟩
  have hkey : dget (execute_code [] .timesOut).2 "stderr"
      = some (PyVal.str "Execution timeout") := rfl
  rw [hkey] at h
  have h2 : "Execution timeout" = "execution timeout" := by
    injection h with h1
    injection h1
  exact absurd h2 (by decide)

/-- C5 amended: a timed-out run yields `success=false`, diagnostic
`"Execution timeout"` and `returncode=-1`; the outcome dict has no dedicated
`timeout` field, but it is distinguishable from the outcome of a program that
merely exits with a non-zero status, whose `returncode` is the positive exit
status. -/
theorem C5_timeout_outcome (fs : List ℕ) :
    dget (execute_code fs .timesOut).2 "success" = some (.bool false)
    ∧ dget (execute_code fs .timesOut).2 "stderr"
        = some (.str "Execution timeout")
    ∧ dget (execute_code fs .timesOut).2 "returncode" = some (.int (-1))
    ∧ dget (execute_code fs .timesOut).2 "timeout" = none
    ∧ ∀ (rc : Int) (out err : String), 0 < rc →
        (execute_code fs (.completes rc out err)).2 ≠ (execute_code fs .timesOut).2 := by
  refine ⟨rfl, rfl, rfl, rfl, fun rc out err hrc h => ?_⟩
  have := congrArg (fun d => dget d "returncode") h
  simp only [execute_code, run_python, dget, List.find?] at this
  have hrc1 : rc = -1 := by
    cases this
    rfl
  omega

/-- C5 witness: exit status 1 versus timeout. -/
theorem C5_witness :
    dget (execute_code [] .timesOut).2 "success" = some (.bool false)
    ∧ (execute_code [] (.completes 1 "" "boom")).2 ≠ (execute_code [] .timesOut).2 :=
  ⟨(C5_timeout_outcome []).1,
   (C5_timeout_outcome []).2.2.2.2 1 "" "boom" (by decide)⟩

/-! ## C6: the outcome of a run that completes -/

/-- C6: a run that completes without timeout succeeds exactly when the child
exits with status 0, and the outcome carries the exit status and the captured
streams; in particular a run whose appended tests raise (non-zero exit,
non-empty stderr) yields `success=false` with non-empty diagnostic text. -/
theorem C6_completion_outcome (fs : List ℕ) (rc : Int) (out err : String) :
    (dget (execute_code fs (.completes rc out err)).2 "success"
        = some (.bool true) ↔ rc = 0)
    ∧ dget (execute_code fs (.completes rc out err)).2 "returncode"
        = some (.int rc)
    ∧ dget (execute_code fs (.completes rc out err)).2 "stdout" = some (.str out)
    ∧ dget (execute_code fs (.completes rc out err)).2 "stderr" = some (.str err)
    ∧ (rc ≠ 0 →
        dget (execute_code fs (.completes rc out err)).2 "success"
          = some (.bool false))
    ∧ (err ≠ "" → ∃ s, s ≠ "" ∧
        dget (execute_code fs (.completes rc out err)).2 "stderr"
          = some (.str s)) := by
  have hkey : dget (execute_code fs (.completes rc out err)).2 "success"
      = some (.bool (rc == 0)) := rfl
  refine ⟨?_, rfl, rfl, rfl, fun hrc => ?_, fun herr => ⟨err, herr, rfl⟩⟩
  · rw [hkey]
    simp only [Option.some.injEq, PyVal.bool.injEq, beq_iff_eq]
  · rw [hkey, beq_eq_false_iff_ne.mpr hrc]

/-- C6 witness: a run whose appended tests raise an assertion. -/
theorem C6_witness :
    dget (execute_code [] (.completes 1 "" "AssertionError")).2 "success"
      = some (.bool false)
    ∧ ∃ s, s ≠ "" ∧
        dget (execute_code [] (.completes 1 "" "AssertionError")).2 "stderr"
          = some (.str s) :=
  ⟨(C6_completion_outcome [] 1 "" "AssertionError").2.2.2.2.1 (by decide),
   (C6_completion_outcome [] 1 "" "AssertionError").2.2.2.2.2 (by decide)⟩

/-! ## C7: temporary-file discipline -/

lemma le_foldr_max {a : ℕ} {l : List ℕ} (h : a ∈ l) : a ≤ l.foldr max 0 := by
  induction l with
  | nil => cases h
  | cons b l ih =>
    rcases List.mem_cons.mp h with rfl | h2
    · exact le_max_left _ _
    · exact le_trans (ih h2) (le_max_right _ _)

lemma freshName_not_mem (l : List ℕ) : freshName l ∉ l := by
  intro h
  have := le_foldr_max h
  simp only [freshName] at this
  omega

/-- C7: every invocation of `execute_code` allocates a temporary file name
colliding with no live one (so two overlapping invocations never share a
name), and on every exit path — normal completion, non-zero exit, raised
exception, or timeout — the file is unlinked, leaving the filesystem as it
was, while the outcome is the one produced by the run. -/
theorem C7_tempfile_discipline (fs : List ℕ) (b : ExecBehavior) :
    freshName fs ∉ fs
    ∧ freshName (freshName fs :: fs) ∉ (freshName fs :: fs)
    ∧ (execute_code fs b).1 = fs
    ∧ (execute_code fs b).2 = run_python b := by
  refine ⟨freshName_not_mem fs, freshName_not_mem _, ?_, rfl⟩
  simp [execute_code]

/-- C7 witness: a timed-out invocation starting from an empty filesystem. -/
theorem C7_witness :
    freshName [] ∉ ([] : List ℕ)
    ∧ freshName (freshName [] :: []) ∉ (freshName [] :: [])
    ∧ (execute_code [] .timesOut).1 = []
    ∧ (execute_code [] .timesOut).2 = run_python .timesOut :=
  C7_tempfile_discipline [] .timesOut

/-! ## C8: the HumanEval+ benchmark loop -/

/-- Whether the sandboxed run of a problem succeeds (child exits 0). -/
def behaviorSuccess : ExecBehavior → Bool
  | .completes rc _ _ => rc == 0
  | _ => false

lemma evaluate_solution_passed (p : Problem) :
    (evaluate_solution p).passed = behaviorSuccess p.behavior := by
  obtain ⟨tid, comp, b⟩ := p
  cases b <;> rfl

/-- C8 counterexample: a problem with no completion is recorded as failed,
but with diagnostic `"No completion"` — not the claimed exact string
`"no completion"`. -/
theorem C8_counterexample :
    (eval_step ⟨"t", "", .completes 0 "" ""⟩).1.passed = false
    ∧ dget (eval_step ⟨"t", "", .completes 0 "" ""⟩).1.result "stderr"
        = some (PyVal.str "No completion")
    ∧ dget (eval_step ⟨"t", "", .completes 0 "" ""⟩).1.result "stderr"
        ≠ some (PyVal.str "no completion") := by
  refine ⟨rfl, rfl, fun h => ?_⟩
  have hkey : dget (eval_step ⟨"t", "", .completes 0 "" ""⟩).1.result "stderr"
      = some (PyVal.str "No completion") := rfl
  rw [hkey] at h
  have h2 : "No completion" = "no completion" := by
    injection h with h1
    injection h1
  exact absurd h2 (by decide)

/-- C8 amended: in `run_evaluation` each problem is executed at most once;
a problem with no completion is recorded as failed with diagnostic
`"No completion"` without invoking the sandbox; an executed problem's
recorded `passed` is its execution outcome's success; and `pass_rate` is the
number of passing problems over the total, times 100. -/
theorem C8_benchmark_metrics (problems : List Problem) :
    (∀ p : Problem, (eval_step p).2 ≤ 1)
    ∧ (∀ p : Problem, p.completion = "" →
        (eval_step p).2 = 0
        ∧ (eval_step p).1.passed = false
        ∧ dget (eval_step p).1.result "stderr" = some (.str "No completion"))
    ∧ (∀ p : Problem, p.completion ≠ "" →
        (eval_step p).2 = 1
        ∧ (eval_step p).1.passed = behaviorSuccess p.behavior)
    ∧ (0 < problems.length →
        (run_evaluation problems).pass_rate
          = (((run_evaluation problems).results.countP (fun r => r.passed) : ℚ)
              / problems.length) * 100) := by
  refine ⟨fun p => ?_, fun p hp => ?_, fun p hp => ?_, fun hlen => ?_⟩
  · unfold eval_step
    split <;> omega
  · unfold eval_step
    rw [if_pos hp]
    exact ⟨rfl, rfl, rfl⟩
  · unfold eval_step
    rw [if_neg hp]
    exact ⟨rfl, evaluate_solution_passed p⟩
  · simp only [run_evaluation]
    rw [if_pos hlen]

/-- C8 witness: one passing problem, one failing, one without a completion —
`pass_rate` is a percentage over all three. -/
theorem C8_witness :
    ((eval_step ⟨"t2", "", .timesOut⟩).2 = 0
      ∧ (eval_step ⟨"t2", "", .timesOut⟩).1.passed = false
      ∧ dget (eval_step ⟨"t2", "", .timesOut⟩).1.result "stderr"
          = some (.str "No completion"))
    ∧ ((eval_step ⟨"t1", "x", .completes 0 "ok" ""⟩).2 = 1
      ∧ (eval_step ⟨"t1", "x", .completes 0 "ok" ""⟩).1.passed
          = behaviorSuccess (.completes 0 "ok" ""))
    ∧ (run_evaluation
          [⟨"t1", "x", .completes 0 "ok" ""⟩, ⟨"t2", "", .timesOut⟩,
           ⟨"t3", "y", .completes 1 "" "AssertionError"⟩]).pass_rate
        = (((run_evaluation
              [⟨"t1", "x", .completes 0 "ok" ""⟩, ⟨"t2", "", .timesOut⟩,
               ⟨"t3", "y", .completes 1 "" "AssertionError"⟩]).results.countP
              (fun r => r.passed) : ℚ) / 3) * 100 :=
  ⟨(C8_benchmark_metrics []).2.1 ⟨"t2", "", .timesOut⟩ rfl,
   (C8_benchmark_metrics []).2.2.1 ⟨"t1", "x", .completes 0 "ok" ""⟩ (by decide),
   (C8_benchmark_metrics
      [⟨"t1", "x", .completes 0 "ok" ""⟩, ⟨"t2", "", .timesOut⟩,
       ⟨"t3", "y", .completes 1 "" "AssertionError"⟩]).2.2.2 (by decide)⟩

/-! ## C9: recommendations -/

lemma isEmpty_map {α β : Type} (f : α → β) (l : List α) :
    (l.map f).isEmpty = l.isEmpty := by
  cases l <;> rfl

lemma recommendations_loop_eq (l : List (String × PyDict)) (acc : List String) :
    l.foldl
      (fun acc p =>
        if rateOrDefault p.2 1.0 < 0.8 then
          acc ++ [recommendation_for p.1 (rateOrDefault p.2 0)]
        else acc) acc
    = acc ++ (l.filter (fun p => rateOrDefault p.2 1.0 < 0.8)).map
        (fun p => recommendation_for p.1 (rateOrDefault p.2 0)) := by
  induction l generalizing acc with
  | nil => simp
  | cons p l ih =>
    by_cases h : rateOrDefault p.2 1.0 < 0.8 <;>
      simp [List.filter_cons, h, ih, List.append_assoc]

/-- C9: `generate_recommendations` emits exactly one entry — built from the
category name and its rate — per category whose `pass_rate` defaults below
0.8 (absent keys default to 1.0, hence trigger nothing), and a single
affirmative line when none triggers; the list is never empty. -/
theorem C9_recommendations (evaluations : List (String × PyDict)) :
    generate_recommendations evaluations
      = (if (evaluations.filter (fun p => rateOrDefault p.2 1.0 < 0.8)).isEmpty then
          ["Excellent performance across all evaluations!"]
        else
          (evaluations.filter (fun p => rateOrDefault p.2 1.0 < 0.8)).map
            (fun p => recommendation_for p.1 (rateOrDefault p.2 0)))
    ∧ generate_recommendations evaluations ≠ [] := by
  have hloop := recommendations_loop_eq evaluations []
  have hgen : generate_recommendations evaluations
      = (if (evaluations.filter (fun p => rateOrDefault p.2 1.0 < 0.8)).isEmpty then
          ["Excellent performance across all evaluations!"]
        else
          (evaluations.filter (fun p => rateOrDefault p.2 1.0 < 0.8)).map
            (fun p => recommendation_for p.1 (rateOrDefault p.2 0))) := by
    unfold generate_recommendations
    rw [hloop, List.nil_append]
    dsimp only
    rw [isEmpty_map]
  refine ⟨hgen, ?_⟩
  rw [hgen]
  by_cases hf : (evaluations.filter (fun p => rateOrDefault p.2 1.0 < 0.8)).isEmpty
  · rw [if_pos hf]
    simp
  · rw [if_neg hf]
    simp_all [List.isEmpty_iff]

/-- C9 witness: one low-rate category triggers exactly its recommendation. -/
theorem C9_witness :
    generate_recommendations [("security", [("pass_rate", PyVal.rat (1/2))])]
      = (if ([("security", [("pass_rate", PyVal.rat (1/2))])].filter
            (fun p => rateOrDefault p.2 1.0 < 0.8)).isEmpty then
          ["Excellent performance across all evaluations!"]
        else
          ([("security", [("pass_rate", PyVal.rat (1/2))])].filter
            (fun p => rateOrDefault p.2 1.0 < 0.8)).map
            (fun p => recommendation_for p.1 (rateOrDefault p.2 0)))
    ∧ generate_recommendations [("security", [("pass_rate", PyVal.rat (1/2))])] ≠ [] :=
  C9_recommendations [("security", [("pass_rate", PyVal.rat (1/2))])]

/-! ## C10: the security evaluation with the service down -/

/-- C10: any exception while sending a payload makes
`test_security_vulnerability` return true, so with the service unreachable
every one of the four payloads is recorded blocked/passed and
`run_security_eval` reports status success with pass rate 1. -/
theorem C10_security_service_down :
    test_security_vulnerability .exn = true
    ∧ dget (run_security_eval (fun _ => .exn)) "status"
        = some (.str "success")
    ∧ dget (run_security_eval (fun _ => .exn)) "pass_rate" = some (.rat 1)
    ∧ dget (run_security_eval (fun _ => .exn)) "results"
        = some (.list
            [.dict [("name", .str "SQL Injection"), ("blocked", .bool true),
                    ("passed", .bool true)],
             .dict [("name", .str "XSS"), ("blocked", .bool true),
                    ("passed", .bool true)],
             .dict [("name", .str "Path Traversal"), ("blocked", .bool true),
                    ("passed", .bool true)],
             .dict [("name", .str "Command Injection"), ("blocked", .bool true),
                    ("passed", .bool true)]]) := by
  refine ⟨rfl, rfl, ?_, rfl⟩
  have hkey : dget (run_security_eval (fun _ => .exn)) "pass_rate"
      = some (.rat ((4 : ℚ) / 4)) := rfl
  rw [hkey]
  norm_num

end UAIDA
